import Mathlib

/-!
Shallow embedding of the genetic-algorithm-with-PID-control-system repository
(`src/algorithm/ControlSystem.py`, `src/algorithm/GeneticAlgorithm.py`,
`src/algorithm/Chromosome.py`).  Python floats are modelled as rationals;
`numpy.sin` is an uninterpreted parameter `sinf : ℚ → ℚ` threaded through the
definitions; the ambient numpy random source is modelled by explicit draw
arguments, with the numpy range guarantees (`random()`/`uniform` in `[0,1)`,
`randint(0, m)` in `[0, m)`) carried as hypotheses of the theorems.
Python exceptions (`ValueError` from `randint`, `IndexError` from list
indexing) are modelled with `Except`.
-/

namespace GAPID

/-- `Chromosome.py`: four real-valued genes. -/
structure Chromosome where
  kp : ℚ
  ki : ℚ
  kd : ℚ
  eta : ℚ
deriving DecidableEq, Repr

/-- The `control-system` section of the configuration. -/
structure CSConfig where
  initial_y_now : ℚ
  period : ℕ
  slicing_per_period : ℕ
  u_boundary : ℚ × ℚ
deriving DecidableEq, Repr

/-- `scipy.signal.square` at phase `2π·c` (`c` measured in cycles, duty 0.5):
`+1` while the phase mod one cycle is in the first half, `-1` in the second. -/
def square_wave (c : ℚ) : ℚ :=
  if Int.fract c < 1 / 2 then 1 else -1

/-- `ControlSystem.__init_input_signal`:
`square(2π · period · linspace(0, 1, period*slicing_per_period))`.
Sample `i` of `linspace(0, 1, n)` sits at `i / (n - 1)` (for `n = 1` the single
sample sits at the start `0`, which the rational convention `0 / 0 = 0` gives
for free). -/
def input_signal (period slicing_per_period : ℕ) : List ℚ :=
  (List.range (period * slicing_per_period)).map fun i =>
    square_wave ((period : ℚ) * i / ((period * slicing_per_period - 1 : ℕ) : ℚ))

/-- The mutable numeric state of `ControlSystem` (history lists included). -/
structure CSState where
  y_now : ℚ
  y_fore : ℚ
  y : List ℚ
  error_now : ℚ
  error_fore : ℚ
  error_sum : ℚ
  errors : List ℚ
  u_now : ℚ
  u_fore : ℚ
deriving DecidableEq, Repr

/-- The constant data of one `ControlSystem` instance: the chromosome's gains
and the `u` clamp bounds. -/
structure CSParams where
  kp : ℚ
  ki : ℚ
  kd : ℚ
  eta : ℚ
  u_boundary : ℚ × ℚ
deriving DecidableEq, Repr

/-- `ControlSystem.__update_u_now`: the raw PID action, then the two-sided
clamp into `u_boundary`. -/
def update_u_now (p : CSParams) (s : CSState) : CSState :=
  let u_next := p.kp * s.error_now + p.ki * s.error_sum
    + p.kd * (s.error_now - s.error_fore)
  let u_next := if u_next < p.u_boundary.1 then p.u_boundary.1
    else if u_next > p.u_boundary.2 then p.u_boundary.2 else u_next
  { s with u_now := u_next }

/-- `ControlSystem.__update_y_now`: the nonlinear plant law, written on the
single retained now/fore state. -/
def update_y_now (p : CSParams) (sinf : ℚ → ℚ) (s : CSState) : CSState :=
  { s with y_now :=
      2.6 * s.y_now - 1.2 * s.y_fore + s.u_now + 1.2 * s.u_fore
        + p.eta * s.y_now * sinf (s.u_now + s.u_fore + s.y_now + s.y_fore) }

/-- `self.error_now = self.input_signal[index] - self.y_now` inside `run`. -/
def set_error_now (sig : List ℚ) (index : ℕ) (s : CSState) : CSState :=
  { s with error_now := sig.getD index 0 - s.y_now }

/-- The error bookkeeping of one `run` iteration:
`error_sum += error_now; errors.append(error_now); error_fore = error_now`. -/
def accumulate_error (s : CSState) : CSState :=
  { s with error_sum := s.error_sum + s.error_now,
           errors := s.errors ++ [s.error_now],
           error_fore := s.error_now }

/-- `self.y.append(self.y_now); self.y_fore = self.y_now` inside `run`. -/
def shift_y (s : CSState) : CSState :=
  { s with y := s.y ++ [s.y_now], y_fore := s.y_now }

/-- `self.u_fore = self.u_now` inside `run`. -/
def shift_u (s : CSState) : CSState :=
  { s with u_fore := s.u_now }

/-- One iteration of `ControlSystem.run`, exactly in the source's statement
order. -/
def run_step (p : CSParams) (sinf : ℚ → ℚ) (sig : List ℚ) (index : ℕ)
    (s : CSState) : CSState :=
  shift_u (shift_y (accumulate_error (update_u_now p
    (set_error_now sig index (update_y_now p sinf s)))))

/-- `ControlSystem.__init_system_parameter` (together with the `y_now`
assignment of the constructor): the state just before `run`. -/
def init_state (p : CSParams) (sig : List ℚ) (y0 : ℚ) : CSState :=
  let e0 := sig.getD 0 0 - y0
  update_u_now p
    { y_now := y0, y_fore := 0, y := [y0],
      error_now := e0, error_fore := 0, error_sum := 0, errors := [e0],
      u_now := 0, u_fore := 0 }

/-- Build `CSParams` from a chromosome and a configuration, as the
`ControlSystem` constructor does. -/
def mk_params (c : Chromosome) (cfg : CSConfig) : CSParams :=
  { kp := c.kp, ki := c.ki, kd := c.kd, eta := c.eta,
    u_boundary := cfg.u_boundary }

/-- `ControlSystem.run`: fold the per-tick step over
`range(1, period * slicing_per_period)`. -/
def cs_run (p : CSParams) (sinf : ℚ → ℚ) (cfg : CSConfig) : CSState :=
  let sig := input_signal cfg.period cfg.slicing_per_period
  (List.range' 1 (cfg.period * cfg.slicing_per_period - 1)).foldl
    (fun s index => run_step p sinf sig index s)
    (init_state p sig cfg.initial_y_now)

/-- `ControlSystem.get_fitness_value`: `sum(abs(array(self.errors)))`. -/
def get_fitness_value (s : CSState) : ℚ :=
  (s.errors.map (fun e => |e|)).sum

/-- `GeneticAlgorithm.calculate_fitness` applied to one chromosome: build the
control system, run it, read the fitness. -/
def calculate_fitness (sinf : ℚ → ℚ) (cfg : CSConfig) (c : Chromosome) : ℚ :=
  get_fitness_value (cs_run (mk_params c cfg) sinf cfg)

/-! ## Genetic algorithm (`GeneticAlgorithm.py`) -/

/-- Python exceptions that the modelled code paths can raise:
`ValueError` from `numpy.random.randint(low, high)` when `low >= high`, and
`IndexError` from list subscripting past the end. -/
inductive PyError where
  | valueError : PyError
  | indexError : PyError
deriving DecidableEq, Repr

/-- Python `lst[i]` for a nonnegative index: `IndexError` when out of range. -/
def list_at {α : Type} (l : List α) (i : ℕ) : Except PyError α :=
  match l.get? i with
  | some a => Except.ok a
  | none => Except.error PyError.indexError

/-- A Python `for` loop that appends `f a` for each element, aborting at the
first raised exception (used for the fitness loop and the children loop of
`produce_next_generation`). -/
def map_except {α β : Type} (f : α → Except PyError β) :
    List α → Except PyError (List β)
  | [] => Except.ok []
  | a :: l =>
    match f a with
    | Except.error e => Except.error e
    | Except.ok b =>
      match map_except f l with
      | Except.error e => Except.error e
      | Except.ok bs => Except.ok (b :: bs)

/-- The `genetic-algorithm` section of the configuration together with the
`control-system` section, as held by a `GeneticAlgorithm` instance. -/
structure GAParams where
  pid_boundary : ℚ × ℚ
  eta_boundary : ℚ × ℚ
  population_number : ℕ
  mutation_probability : ℚ
  crossover_rate : ℚ
  cs_config : CSConfig
deriving DecidableEq, Repr

/-- `GeneticAlgorithm.__check_boundary`: clamp `value` into
`[boundary.1, boundary.2]`. -/
def check_boundary (value : ℚ) (boundary : ℚ × ℚ) : ℚ :=
  if value < boundary.1 then boundary.1
  else if value > boundary.2 then boundary.2
  else value

/-- `numpy.random.uniform(lo, hi)` realised from a `[0,1)` draw `r`. -/
def uniform_draw (lo hi r : ℚ) : ℚ :=
  lo + (hi - lo) * r

/-- The four `uniform` draws used to sample one initial chromosome. -/
structure InitDraws where
  rkp : ℚ
  rki : ℚ
  rkd : ℚ
  reta : ℚ
deriving DecidableEq, Repr

/-- One chromosome of `GeneticAlgorithm.__generate_initial_population`. -/
def init_chromosome (g : GAParams) (d : InitDraws) : Chromosome :=
  { kp := uniform_draw g.pid_boundary.1 g.pid_boundary.2 d.rkp,
    ki := uniform_draw g.pid_boundary.1 g.pid_boundary.2 d.rki,
    kd := uniform_draw g.pid_boundary.1 g.pid_boundary.2 d.rkd,
    eta := uniform_draw g.eta_boundary.1 g.eta_boundary.2 d.reta }

/-- `GeneticAlgorithm.__generate_initial_population`. -/
def init_population (g : GAParams) (ds : ℕ → InitDraws) : List Chromosome :=
  (List.range g.population_number).map fun i => init_chromosome g (ds i)

/-- The random draws one `__mutation` call may consume: the shared
`uniform(-0.3, 0.3)` scale draw `rv`, the four threshold draws `r1..r4` and
the four perturbation draws `m1..m4` (all `random()`, i.e. in `[0,1)`). -/
structure MutDraws where
  rv : ℚ
  r1 : ℚ
  m1 : ℚ
  r2 : ℚ
  m2 : ℚ
  r3 : ℚ
  m3 : ℚ
  r4 : ℚ
  m4 : ℚ
deriving DecidableEq, Repr

/-- `GeneticAlgorithm.__mutation`: nested `elif` thresholds at
`mutation_probability * 0.25 / 0.5 / 0.75 / 1.0`; the hit gene is perturbed
and clamped into its boundary; at most one gene changes. -/
def mutation (g : GAParams) (d : MutDraws) (c : Chromosome) : Chromosome :=
  let value_scale_number := uniform_draw (-0.3) 0.3 d.rv
  if d.r1 < g.mutation_probability * 0.25 then
    { c with kp := check_boundary (c.kp + d.m1 * value_scale_number) g.pid_boundary }
  else if d.r2 < g.mutation_probability * 0.5 then
    { c with ki := check_boundary (c.ki + d.m2 * value_scale_number) g.pid_boundary }
  else if d.r3 < g.mutation_probability * 0.75 then
    { c with kd := check_boundary (c.kd + d.m3 * value_scale_number) g.pid_boundary }
  else if d.r4 < g.mutation_probability then
    { c with eta := check_boundary (c.eta + 4 * d.m4 * value_scale_number) g.eta_boundary }
  else c

/-- The five gene-combination bands of `__cross_over`, keyed by the second
`random()` draw. -/
def cross_over_bands (r2 : ℚ) (parent_1 parent_2 : Chromosome) : Chromosome :=
  if r2 < 1/5 then
    { kp := parent_2.kp, ki := parent_1.ki, kd := parent_1.kd,
      eta := parent_2.eta }
  else if r2 < 2/5 then
    { kp := parent_1.kp, ki := parent_2.ki, kd := parent_1.kd,
      eta := parent_2.eta }
  else if r2 < 3/5 then
    { kp := parent_1.kp, ki := parent_1.ki, kd := parent_2.kd,
      eta := parent_1.eta }
  else if r2 < 4/5 then
    { kp := parent_2.kp, ki := parent_1.ki, kd := parent_2.kd,
      eta := parent_1.eta }
  else parent_2

/-- `GeneticAlgorithm.__cross_over`: `if random() > crossover_rate: return
parent_1`, otherwise one of the five bands. -/
def cross_over (crossover_rate r1 r2 : ℚ) (parent_1 parent_2 : Chromosome) :
    Chromosome :=
  if r1 > crossover_rate then parent_1
  else cross_over_bands r2 parent_1 parent_2

/-- The tournament fold of `__select`: start from the baseline index and keep
the strictly better index at each of the drawn candidates. -/
def tourn_fold (f : ℕ → ℚ) (baseline : ℕ) (draws : List ℕ) : ℕ :=
  draws.foldl (fun sel i => if f i < f sel then i else sel) baseline

/-- The body of `GeneticAlgorithm.__select` given the drawn indices (numpy
guarantees them in `[0, len(fitness_values) - 1)`). -/
def select_index (fitness_values : List ℚ) (baseline : ℕ) (draws : List ℕ) :
    ℕ :=
  tourn_fold (fun i => fitness_values.getD i 0) baseline draws

/-- The random draws one slot of the `produce_next_generation` loop consumes:
the `randint` baseline, the two (`k = 2`) tournament `randint` draws, the two
`random()` draws of `__cross_over`, and the `__mutation` draws. -/
structure SlotDraws where
  baseline : ℕ
  t1 : ℕ
  t2 : ℕ
  cr1 : ℚ
  cr2 : ℚ
  mutd : MutDraws
deriving DecidableEq, Repr

/-- `GeneticAlgorithm.__select` with its `randint(0, len - 1)` calls: numpy
raises `ValueError` when `len - 1 <= 0`. -/
def select_except (fitness_values : List ℚ) (d : SlotDraws) :
    Except PyError ℕ :=
  if fitness_values.length ≤ 1 then Except.error PyError.valueError
  else Except.ok (select_index fitness_values d.baseline [d.t1, d.t2])

/-- The fitness loop of `produce_next_generation`:
`fitness_values.append(self.calculate_fitness(index))` for each index in
`range(population_number)`. -/
def fitness_values_of (g : GAParams) (sinf : ℚ → ℚ) (pop : List Chromosome) :
    Except PyError (List ℚ) :=
  map_except
    (fun i => (list_at pop i).map (calculate_fitness sinf g.cs_config))
    (List.range g.population_number)

/-- One slot of the children loop: select a parent index, read
`populations[parent_index]` and `populations[parent_index + 1]`, cross over,
mutate. -/
def produce_slot (g : GAParams) (pop : List Chromosome) (fv : List ℚ)
    (d : SlotDraws) : Except PyError Chromosome :=
  (select_except fv d).bind fun parent_index =>
    (list_at pop parent_index).bind fun parent_1 =>
      (list_at pop (parent_index + 1)).bind fun parent_2 =>
        Except.ok (mutation g d.mutd
          (cross_over g.crossover_rate d.cr1 d.cr2 parent_1 parent_2))

/-- `GeneticAlgorithm.produce_next_generation`: compute all fitness values,
then fill `population_number` child slots and replace the population. -/
def produce_next_generation (g : GAParams) (sinf : ℚ → ℚ)
    (pop : List Chromosome) (ds : ℕ → SlotDraws) :
    Except PyError (List Chromosome) :=
  (fitness_values_of g sinf pop).bind fun fv =>
    map_except (fun i => produce_slot g pop fv (ds i))
      (List.range g.population_number)

/-! ## Randomness contracts and reachable states -/

/-- The numpy guarantee for `random()` and for the `[0,1)` seed of a
`uniform` draw. -/
def UnitDraw (r : ℚ) : Prop := 0 ≤ r ∧ r < 1

/-- All four draws sampling one initial chromosome are `[0,1)` draws. -/
def ValidInitDraws (d : InitDraws) : Prop :=
  UnitDraw d.rkp ∧ UnitDraw d.rki ∧ UnitDraw d.rkd ∧ UnitDraw d.reta

/-- All `__mutation` draws are `[0,1)` draws. -/
def ValidMutDraws (d : MutDraws) : Prop :=
  UnitDraw d.rv ∧ UnitDraw d.r1 ∧ UnitDraw d.m1 ∧ UnitDraw d.r2 ∧
    UnitDraw d.m2 ∧ UnitDraw d.r3 ∧ UnitDraw d.m3 ∧ UnitDraw d.r4 ∧
    UnitDraw d.m4

/-- The numpy contract for one slot of the children loop against a population
of size `n`: the three `randint(0, n - 1)` draws land in `[0, n - 2]` and the
`random()` draws in `[0,1)`. -/
def ValidSlotDraws (n : ℕ) (d : SlotDraws) : Prop :=
  d.baseline + 1 < n ∧ d.t1 + 1 < n ∧ d.t2 + 1 < n ∧
    UnitDraw d.cr1 ∧ UnitDraw d.cr2 ∧ ValidMutDraws d.mutd

/-- Populations reachable from the constructor by any number of successful
`produce_next_generation` calls, with all randomness drawn inside the numpy
contracts. -/
inductive Reachable (g : GAParams) (sinf : ℚ → ℚ) : List Chromosome → Prop
  | init (ds : ℕ → InitDraws) (h : ∀ i, ValidInitDraws (ds i)) :
      Reachable g sinf (init_population g ds)
  | step (pop : List Chromosome) (ds : ℕ → SlotDraws)
      (pop' : List Chromosome) (hr : Reachable g sinf pop)
      (hd : ∀ i, ValidSlotDraws g.population_number (ds i))
      (hp : produce_next_generation g sinf pop ds = Except.ok pop') :
      Reachable g sinf pop'

/-- All four genes inside their configured boundaries. -/
def InBounds (g : GAParams) (c : Chromosome) : Prop :=
  g.pid_boundary.1 ≤ c.kp ∧ c.kp ≤ g.pid_boundary.2 ∧
  g.pid_boundary.1 ≤ c.ki ∧ c.ki ≤ g.pid_boundary.2 ∧
  g.pid_boundary.1 ≤ c.kd ∧ c.kd ≤ g.pid_boundary.2 ∧
  g.eta_boundary.1 ≤ c.eta ∧ c.eta ≤ g.eta_boundary.2

/-- A concrete one-tick control-system configuration for the boundary
scenarios. -/
def example_cs_config : CSConfig :=
  { initial_y_now := 0, period := 1, slicing_per_period := 1, u_boundary := (-1, 1) }

/-- A concrete one-individual GA configuration (`population_number = 1`). -/
def example_config_one : GAParams :=
  { pid_boundary := (0, 1), eta_boundary := (0, 1), population_number := 1,
    mutation_probability := 0, crossover_rate := 0,
    cs_config := example_cs_config }

/-- The same configuration with two individuals. -/
def example_config_two : GAParams :=
  { pid_boundary := (0, 1), eta_boundary := (0, 1), population_number := 2,
    mutation_probability := 0, crossover_rate := 0,
    cs_config := example_cs_config }

/-- The square-wave scenario configuration: one period sampled at 4 points,
zero initial output, `u` clamped into `[-1, 1]`. -/
def example_cfg_square : CSConfig :=
  { initial_y_now := 0, period := 1, slicing_per_period := 4, u_boundary := (-1, 1) }

/-- The scenario chromosome `kp = 1, ki = kd = eta = 0`. -/
def example_chromosome_unit : Chromosome :=
  { kp := 1, ki := 0, kd := 0, eta := 0 }

/-- All-zero initial-sampling draws. -/
def example_init_draws : InitDraws :=
  { rkp := 0, rki := 0, rkd := 0, reta := 0 }

/-- All-zero mutation draws. -/
def example_mut_draws : MutDraws :=
  { rv := 0, r1 := 0, m1 := 0, r2 := 0, m2 := 0, r3 := 0, m3 := 0, r4 := 0, m4 := 0 }

/-- All-zero per-slot draws. -/
def example_slot_draws : SlotDraws :=
  { baseline := 0, t1 := 0, t2 := 0, cr1 := 0, cr2 := 0, mutd := example_mut_draws }

/-! ## Helper lemmas -/

theorem check_boundary_mem (value : ℚ) (b : ℚ × ℚ) (h : b.1 ≤ b.2) :
    b.1 ≤ check_boundary value b ∧ check_boundary value b ≤ b.2 := by
  unfold check_boundary
  split_ifs with h1 h2
  · exact ⟨le_refl _, h⟩
  · exact ⟨h, le_refl _⟩
  · exact ⟨le_of_not_lt h1, le_of_not_lt h2⟩

theorem uniform_draw_mem (lo hi r : ℚ) (h : lo ≤ hi) (hr : UnitDraw r) :
    lo ≤ uniform_draw lo hi r ∧ uniform_draw lo hi r ≤ hi := by
  unfold uniform_draw
  constructor
  · nlinarith [hr.1, hr.2]
  · nlinarith [hr.1, hr.2]

theorem list_at_ok_mem {α : Type} {l : List α} {i : ℕ} {a : α}
    (h : list_at l i = Except.ok a) : a ∈ l := by
  unfold list_at at h
  cases hg : l.get? i with
  | none => rw [hg] at h; cases h
  | some b =>
    rw [hg] at h
    cases h
    exact List.get?_mem hg

theorem list_at_ok_of_lt {α : Type} {l : List α} {i : ℕ}
    (h : i < l.length) : ∃ a, list_at l i = Except.ok a := by
  refine ⟨l.get ⟨i, h⟩, ?_⟩
  unfold list_at
  rw [List.get?_eq_get h]

theorem map_except_ok_length {α β : Type} {f : α → Except PyError β}
    {l : List α} {l' : List β} (h : map_except f l = Except.ok l') :
    l'.length = l.length := by
  induction l generalizing l' with
  | nil => unfold map_except at h; cases h; rfl
  | cons a l ih =>
    unfold map_except at h
    cases hf : f a with
    | error e => rw [hf] at h; cases h
    | ok b =>
      rw [hf] at h
      cases hm : map_except f l with
      | error e => rw [hm] at h; cases h
      | ok bs =>
        rw [hm] at h
        cases h
        simp [ih hm]

theorem map_except_ok_mem {α β : Type} {f : α → Except PyError β}
    {l : List α} {l' : List β} (h : map_except f l = Except.ok l')
    {b : β} (hb : b ∈ l') : ∃ a ∈ l, f a = Except.ok b := by
  induction l generalizing l' with
  | nil => unfold map_except at h; cases h; cases hb
  | cons a l ih =>
    unfold map_except at h
    cases hf : f a with
    | error e => rw [hf] at h; cases h
    | ok c =>
      rw [hf] at h
      cases hm : map_except f l with
      | error e => rw [hm] at h; cases h
      | ok bs =>
        rw [hm] at h
        cases h
        rcases List.mem_cons.1 hb with h' | h'
        · exact ⟨a, List.mem_cons_self a l, h' ▸ hf⟩
        · rcases ih hm h' with ⟨x, hx, hfx⟩
          exact ⟨x, List.mem_cons_of_mem a hx, hfx⟩

theorem map_except_ok_of_all {α β : Type} {f : α → Except PyError β}
    {l : List α} (h : ∀ a ∈ l, ∃ b, f a = Except.ok b) :
    ∃ l', map_except f l = Except.ok l' ∧ l'.length = l.length := by
  induction l with
  | nil => exact ⟨[], rfl, rfl⟩
  | cons a l ih =>
    rcases h a (List.mem_cons_self a l) with ⟨b, hb⟩
    rcases ih (fun x hx => h x (List.mem_cons_of_mem a hx)) with ⟨bs, hbs, hlen⟩
    refine ⟨b :: bs, ?_, by simp [hlen]⟩
    unfold map_except
    rw [hb, hbs]

theorem tourn_fold_le (f : ℕ → ℚ) (l : List ℕ) :
    ∀ b : ℕ, f (tourn_fold f b l) ≤ f b ∧
      ∀ i ∈ l, f (tourn_fold f b l) ≤ f i := by
  induction l with
  | nil => intro b; exact ⟨le_refl _, by simp⟩
  | cons a l ih =>
    intro b
    have hstep : tourn_fold f b (a :: l)
        = tourn_fold f (if f a < f b then a else b) l := rfl
    rcases ih (if f a < f b then a else b) with ⟨h1, h2⟩
    have hb' : f (if f a < f b then a else b) ≤ f b := by
      split_ifs with h
      · exact le_of_lt h
      · exact le_refl _
    have ha' : f (if f a < f b then a else b) ≤ f a := by
      split_ifs with h
      · exact le_refl _
      · exact le_of_not_lt h
    refine ⟨hstep ▸ le_trans h1 hb', ?_⟩
    intro i hi
    rcases List.mem_cons.1 hi with rfl | hi
    · exact hstep ▸ le_trans h1 ha'
    · exact hstep ▸ h2 i hi

theorem tourn_fold_split (f : ℕ → ℚ) (l : List ℕ) :
    ∀ b : ℕ, ∃ l1 l2, b :: l = l1 ++ tourn_fold f b l :: l2 ∧
      ∀ j ∈ l1, f (tourn_fold f b l) < f j := by
  induction l with
  | nil => intro b; exact ⟨[], [], rfl, by simp⟩
  | cons a l ih =>
    intro b
    have hstep : tourn_fold f b (a :: l)
        = tourn_fold f (if f a < f b then a else b) l := rfl
    by_cases h : f a < f b
    · rcases ih a with ⟨l1, l2, heq, hlt⟩
      have hres : tourn_fold f b (a :: l) = tourn_fold f a l := by
        rw [hstep, if_pos h]
      refine ⟨b :: l1, l2, ?_, ?_⟩
      · rw [hres]
        calc b :: a :: l = b :: (l1 ++ tourn_fold f a l :: l2) := by rw [← heq]
          _ = (b :: l1) ++ tourn_fold f a l :: l2 := rfl
      · intro j hj
        rcases List.mem_cons.1 hj with h' | h'
        · rw [h']
          calc f (tourn_fold f b (a :: l)) ≤ f a := by
                rw [hres]; exact (tourn_fold_le f l a).1
            _ < f b := h
        · rw [hres]; exact hlt j h'
    · rcases ih b with ⟨l1, l2, heq, hlt⟩
      have hres : tourn_fold f b (a :: l) = tourn_fold f b l := by
        rw [hstep, if_neg h]
      cases l1 with
      | nil =>
        simp only [List.nil_append] at heq
        have hb : tourn_fold f b l = b := by
          injection heq with h1 h2
          exact h1.symm
        refine ⟨[], a :: l, ?_, by simp⟩
        rw [hres, hb]
        simp
      | cons x l1' =>
        simp only [List.cons_append] at heq
        injection heq with h1 h2
        have hxb : x = b := h1.symm
        have hl : l = l1' ++ tourn_fold f b l :: l2 := h2
        have hrb : f (tourn_fold f b l) < f b := by
          have := hlt x (List.mem_cons_self x l1')
          rw [hxb] at this
          exact this
        refine ⟨b :: a :: l1', l2, ?_, ?_⟩
        · rw [hres]
          calc b :: a :: l = b :: a :: (l1' ++ tourn_fold f b l :: l2) := by
                rw [← hl]
            _ = (b :: a :: l1') ++ tourn_fold f b l :: l2 := rfl
        · intro j hj
          rw [hres]
          rcases List.mem_cons.1 hj with h' | h'
          · rw [h']; exact hrb
          rcases List.mem_cons.1 h' with h'' | h''
          · rw [h'']; exact lt_of_lt_of_le hrb (le_of_not_lt h)
          · exact hlt j (List.mem_cons_of_mem x h'')

theorem tourn_fold_mem (f : ℕ → ℚ) (l : List ℕ) (b : ℕ) :
    tourn_fold f b l ∈ b :: l := by
  rcases tourn_fold_split f l b with ⟨l1, l2, heq, -⟩
  rw [heq]
  exact List.mem_append_right l1 (List.mem_cons_self _ l2)

theorem init_chromosome_in_bounds (g : GAParams) (d : InitDraws)
    (hpid : g.pid_boundary.1 ≤ g.pid_boundary.2)
    (heta : g.eta_boundary.1 ≤ g.eta_boundary.2)
    (hd : ValidInitDraws d) : InBounds g (init_chromosome g d) := by
  obtain ⟨h1, h2, h3, h4⟩ := hd
  unfold InBounds init_chromosome
  exact ⟨(uniform_draw_mem _ _ _ hpid h1).1, (uniform_draw_mem _ _ _ hpid h1).2,
    (uniform_draw_mem _ _ _ hpid h2).1, (uniform_draw_mem _ _ _ hpid h2).2,
    (uniform_draw_mem _ _ _ hpid h3).1, (uniform_draw_mem _ _ _ hpid h3).2,
    (uniform_draw_mem _ _ _ heta h4).1, (uniform_draw_mem _ _ _ heta h4).2⟩

theorem mutation_in_bounds (g : GAParams) (d : MutDraws) (c : Chromosome)
    (hpid : g.pid_boundary.1 ≤ g.pid_boundary.2)
    (heta : g.eta_boundary.1 ≤ g.eta_boundary.2)
    (hc : InBounds g c) : InBounds g (mutation g d c) := by
  obtain ⟨h1, h2, h3, h4, h5, h6, h7, h8⟩ := hc
  unfold mutation InBounds
  split_ifs
  · exact ⟨(check_boundary_mem _ _ hpid).1, (check_boundary_mem _ _ hpid).2,
      h3, h4, h5, h6, h7, h8⟩
  · exact ⟨h1, h2, (check_boundary_mem _ _ hpid).1,
      (check_boundary_mem _ _ hpid).2, h5, h6, h7, h8⟩
  · exact ⟨h1, h2, h3, h4, (check_boundary_mem _ _ hpid).1,
      (check_boundary_mem _ _ hpid).2, h7, h8⟩
  · exact ⟨h1, h2, h3, h4, h5, h6, (check_boundary_mem _ _ heta).1,
      (check_boundary_mem _ _ heta).2⟩
  · exact ⟨h1, h2, h3, h4, h5, h6, h7, h8⟩

theorem cross_over_in_bounds (g : GAParams) (rate r1 r2 : ℚ)
    (p1 p2 : Chromosome) (h1 : InBounds g p1) (h2 : InBounds g p2) :
    InBounds g (cross_over rate r1 r2 p1 p2) := by
  obtain ⟨a1, a2, a3, a4, a5, a6, a7, a8⟩ := h1
  obtain ⟨b1, b2, b3, b4, b5, b6, b7, b8⟩ := h2
  unfold cross_over cross_over_bands InBounds
  split_ifs
  · exact ⟨a1, a2, a3, a4, a5, a6, a7, a8⟩
  · exact ⟨b1, b2, a3, a4, a5, a6, b7, b8⟩
  · exact ⟨a1, a2, b3, b4, a5, a6, b7, b8⟩
  · exact ⟨a1, a2, a3, a4, b5, b6, a7, a8⟩
  · exact ⟨b1, b2, a3, a4, b5, b6, a7, a8⟩
  · exact ⟨b1, b2, b3, b4, b5, b6, b7, b8⟩

theorem produce_ok_in_bounds (g : GAParams) (sinf : ℚ → ℚ)
    (pop pop' : List Chromosome) (ds : ℕ → SlotDraws)
    (hpid : g.pid_boundary.1 ≤ g.pid_boundary.2)
    (heta : g.eta_boundary.1 ≤ g.eta_boundary.2)
    (h : produce_next_generation g sinf pop ds = Except.ok pop')
    (hpop : ∀ c ∈ pop, InBounds g c) : ∀ c ∈ pop', InBounds g c := by
  unfold produce_next_generation at h
  cases hf : fitness_values_of g sinf pop with
  | error e => rw [hf] at h; cases h
  | ok fv =>
    rw [hf] at h
    replace h : map_except (fun i => produce_slot g pop fv (ds i))
        (List.range g.population_number) = Except.ok pop' := h
    intro c hc
    rcases map_except_ok_mem h hc with ⟨i, _, hslot⟩
    unfold produce_slot at hslot
    cases hs : select_except fv (ds i) with
    | error e => rw [hs] at hslot; cases hslot
    | ok parent_index =>
      rw [hs] at hslot
      simp only [Except.bind] at hslot
      cases hp1 : list_at pop parent_index with
      | error e => rw [hp1] at hslot; cases hslot
      | ok parent_1 =>
        rw [hp1] at hslot
        simp only [Except.bind] at hslot
        cases hp2 : list_at pop (parent_index + 1) with
        | error e => rw [hp2] at hslot; cases hslot
        | ok parent_2 =>
          rw [hp2] at hslot
          simp only [Except.bind, Except.ok.injEq] at hslot
          rw [← hslot]
          exact mutation_in_bounds g _ _ hpid heta
            (cross_over_in_bounds g _ _ _ _ _
              (hpop parent_1 (list_at_ok_mem hp1))
              (hpop parent_2 (list_at_ok_mem hp2)))

theorem reachable_length (g : GAParams) (sinf : ℚ → ℚ)
    (pop : List Chromosome) (hr : Reachable g sinf pop) :
    pop.length = g.population_number := by
  induction hr with
  | init ds h => simp [init_population]
  | step pop ds pop' hr hds hp ih =>
    unfold produce_next_generation at hp
    cases hf : fitness_values_of g sinf pop with
    | error e => rw [hf] at hp; cases hp
    | ok fv =>
      rw [hf] at hp
      replace hp : map_except (fun i => produce_slot g pop fv (ds i))
          (List.range g.population_number) = Except.ok pop' := hp
      rw [map_except_ok_length hp, List.length_range]

theorem fitness_values_ok (g : GAParams) (sinf : ℚ → ℚ)
    (pop : List Chromosome) (hlen : pop.length = g.population_number) :
    ∃ fv, fitness_values_of g sinf pop = Except.ok fv ∧
      fv.length = g.population_number := by
  unfold fitness_values_of
  have hall : ∀ i ∈ List.range g.population_number,
      ∃ b, (list_at pop i).map (calculate_fitness sinf g.cs_config)
        = Except.ok b := by
    intro i hi
    rcases list_at_ok_of_lt (l := pop) (i := i)
      (by rw [hlen]; exact List.mem_range.1 hi) with ⟨a, ha⟩
    exact ⟨calculate_fitness sinf g.cs_config a, by rw [ha]; rfl⟩
  rcases map_except_ok_of_all hall with ⟨fv, hfv, hlen'⟩
  exact ⟨fv, hfv, by rw [hlen', List.length_range]⟩

theorem produce_total (g : GAParams) (sinf : ℚ → ℚ)
    (pop : List Chromosome) (ds : ℕ → SlotDraws)
    (hn : 2 ≤ g.population_number)
    (hlen : pop.length = g.population_number)
    (hds : ∀ i, ValidSlotDraws g.population_number (ds i)) :
    ∃ pop', produce_next_generation g sinf pop ds = Except.ok pop' ∧
      pop'.length = g.population_number := by
  rcases fitness_values_ok g sinf pop hlen with ⟨fv, hfv, hfvlen⟩
  have hall : ∀ i ∈ List.range g.population_number,
      ∃ c, produce_slot g pop fv (ds i) = Except.ok c := by
    intro i _
    obtain ⟨hb, ht1, ht2, -, -, -⟩ := hds i
    have hse : select_except fv (ds i) = Except.ok
        (select_index fv (ds i).baseline [(ds i).t1, (ds i).t2]) := by
      unfold select_except
      rw [if_neg (by omega)]
    have hsel : select_index fv (ds i).baseline [(ds i).t1, (ds i).t2] + 1
        < g.population_number := by
      have hmem := tourn_fold_mem (fun j => fv.getD j 0)
        [(ds i).t1, (ds i).t2] (ds i).baseline
      unfold select_index
      rcases List.mem_cons.1 hmem with h' | h'
      · rw [h']; exact hb
      rcases List.mem_cons.1 h' with h'' | h''
      · rw [h'']; exact ht1
      rcases List.mem_cons.1 h'' with h3 | h3
      · rw [h3]; exact ht2
      · cases h3
    rcases list_at_ok_of_lt (l := pop)
      (i := select_index fv (ds i).baseline [(ds i).t1, (ds i).t2])
      (by omega) with ⟨p1, hp1⟩
    rcases list_at_ok_of_lt (l := pop)
      (i := select_index fv (ds i).baseline [(ds i).t1, (ds i).t2] + 1)
      (by omega) with ⟨p2, hp2⟩
    refine ⟨mutation g (ds i).mutd (cross_over g.crossover_rate (ds i).cr1
      (ds i).cr2 p1 p2), ?_⟩
    unfold produce_slot
    rw [hse]
    simp only [Except.bind]
    rw [hp1]
    simp only [Except.bind]
    rw [hp2]
  rcases map_except_ok_of_all hall with ⟨pop', hpop', hlen'⟩
  refine ⟨pop', ?_, by rw [hlen', List.length_range]⟩
  unfold produce_next_generation
  rw [hfv]
  exact hpop'

theorem produce_value_error (g : GAParams) (sinf : ℚ → ℚ)
    (pop : List Chromosome) (ds : ℕ → SlotDraws)
    (hn : g.population_number = 1) (hlen : pop.length = 1) :
    produce_next_generation g sinf pop ds
      = Except.error PyError.valueError := by
  rcases fitness_values_ok g sinf pop (by omega) with ⟨fv, hfv, hfvlen⟩
  unfold produce_next_generation
  rw [hfv]
  have hslot : produce_slot g pop fv (ds 0)
      = Except.error PyError.valueError := by
    unfold produce_slot select_except
    rw [if_pos (by omega)]
    rfl
  have hrange : List.range g.population_number = [0] := by
    rw [hn]
    rfl
  show map_except (fun i => produce_slot g pop fv (ds i))
    (List.range g.population_number) = Except.error PyError.valueError
  rw [hrange]
  unfold map_except
  rw [hslot]

/-! ## Claim theorems -/

/-- C1: each iteration of `ControlSystem.run` first updates the output by the
plant law `y_now ← 2.6·y_now − 1.2·y_fore + u_now + 1.2·u_fore +
eta·y_now·sin(u_now + u_fore + y_now + y_fore)` on the single retained
now/fore state, then sets `error_now = input_signal[t] − y_now`, then
recomputes `u_now` as the clamped PID action using the `error_sum` that does
not yet include the current `error_now` (and the old `error_fore`), and only
afterwards accumulates `error_sum`, appends `error_now` and `y_now` to their
histories and shifts `error_fore`, `y_fore`, `u_fore`; `run` iterates this
step over `t = 1 .. N−1`. -/
theorem c1_run_iteration_order (p : CSParams) (sinf : ℚ → ℚ) (sig : List ℚ)
    (index : ℕ) (s : CSState) (cfg : CSConfig) :
    run_step p sinf sig index s =
      (let y' := 2.6 * s.y_now - 1.2 * s.y_fore + s.u_now + 1.2 * s.u_fore
        + p.eta * s.y_now * sinf (s.u_now + s.u_fore + s.y_now + s.y_fore);
       let e' := sig.getD index 0 - y';
       let u_raw := p.kp * e' + p.ki * s.error_sum
         + p.kd * (e' - s.error_fore);
       let u' := if u_raw < p.u_boundary.1 then p.u_boundary.1
         else if u_raw > p.u_boundary.2 then p.u_boundary.2 else u_raw;
       { y_now := y', y_fore := y', y := s.y ++ [y'],
         error_now := e', error_fore := e', error_sum := s.error_sum + e',
         errors := s.errors ++ [e'], u_now := u', u_fore := u' }) ∧
    cs_run p sinf cfg =
      (List.range' 1 (cfg.period * cfg.slicing_per_period - 1)).foldl
        (fun st i => run_step p sinf
          (input_signal cfg.period cfg.slicing_per_period) i st)
        (init_state p (input_signal cfg.period cfg.slicing_per_period)
          cfg.initial_y_now) :=
  ⟨rfl, rfl⟩

/-- C3: whenever crossover occurs (`random() > crossover_rate` fails), the
child is determined by the second draw `r2` exactly per the five 1/5-wide
bands of the table. -/
theorem c3_cross_over_band_table (crossover_rate r1 r2 : ℚ)
    (parent_1 parent_2 : Chromosome) (hocc : ¬ r1 > crossover_rate)
    (h0 : 0 ≤ r2) (h1 : r2 < 1) :
    (r2 < 1/5 → cross_over crossover_rate r1 r2 parent_1 parent_2 =
      { kp := parent_2.kp, ki := parent_1.ki, kd := parent_1.kd,
        eta := parent_2.eta }) ∧
    (1/5 ≤ r2 → r2 < 2/5 →
      cross_over crossover_rate r1 r2 parent_1 parent_2 =
      { kp := parent_1.kp, ki := parent_2.ki, kd := parent_1.kd,
        eta := parent_2.eta }) ∧
    (2/5 ≤ r2 → r2 < 3/5 →
      cross_over crossover_rate r1 r2 parent_1 parent_2 =
      { kp := parent_1.kp, ki := parent_1.ki, kd := parent_2.kd,
        eta := parent_1.eta }) ∧
    (3/5 ≤ r2 → r2 < 4/5 →
      cross_over crossover_rate r1 r2 parent_1 parent_2 =
      { kp := parent_2.kp, ki := parent_1.ki, kd := parent_2.kd,
        eta := parent_1.eta }) ∧
    (4/5 ≤ r2 →
      cross_over crossover_rate r1 r2 parent_1 parent_2 = parent_2) := by
  have hc : cross_over crossover_rate r1 r2 parent_1 parent_2
      = cross_over_bands r2 parent_1 parent_2 := by
    unfold cross_over
    exact if_neg hocc
  refine ⟨?_, ?_, ?_, ?_, ?_⟩
  · intro hb
    rw [hc]
    unfold cross_over_bands
    rw [if_pos hb]
  · intro ha hb
    rw [hc]
    unfold cross_over_bands
    rw [if_neg (by linarith), if_pos hb]
  · intro ha hb
    rw [hc]
    unfold cross_over_bands
    rw [if_neg (by linarith), if_neg (by linarith), if_pos hb]
  · intro ha hb
    rw [hc]
    unfold cross_over_bands
    rw [if_neg (by linarith), if_neg (by linarith), if_neg (by linarith),
      if_pos hb]
  · intro ha
    rw [hc]
    unfold cross_over_bands
    rw [if_neg (by linarith), if_neg (by linarith), if_neg (by linarith),
      if_neg (by linarith)]

theorem c3_cross_over_band_table_witness :
    cross_over 1 (1/2) (1/10)
      { kp := 1, ki := 2, kd := 3, eta := 4 }
      { kp := 5, ki := 6, kd := 7, eta := 8 }
      = { kp := 5, ki := 2, kd := 3, eta := 8 } :=
  (c3_cross_over_band_table 1 (1/2) (1/10)
    { kp := 1, ki := 2, kd := 3, eta := 4 }
    { kp := 5, ki := 6, kd := 7, eta := 8 }
    (by norm_num) (by norm_num) (by norm_num)).1 (by norm_num)

/-- C4: tournament selection returns an index whose fitness is `≤` the
fitness of every index in the candidate pool (the baseline plus the drawn
indices), and ties are broken by keeping the first-seen index: every pool
element strictly before the returned one has strictly larger fitness. -/
theorem c4_tournament_minimal (fitness_values : List ℚ) (baseline : ℕ)
    (draws : List ℕ) (hb : baseline < fitness_values.length)
    (hd : ∀ i ∈ draws, i < fitness_values.length) :
    select_index fitness_values baseline draws ∈ baseline :: draws ∧
    (∀ i ∈ baseline :: draws,
      fitness_values.getD (select_index fitness_values baseline draws) 0
        ≤ fitness_values.getD i 0) ∧
    ∃ l1 l2, baseline :: draws
        = l1 ++ select_index fitness_values baseline draws :: l2 ∧
      ∀ j ∈ l1,
        fitness_values.getD (select_index fitness_values baseline draws) 0
          < fitness_values.getD j 0 := by
  unfold select_index
  refine ⟨tourn_fold_mem _ draws baseline, ?_,
    tourn_fold_split _ draws baseline⟩
  intro i hi
  rcases List.mem_cons.1 hi with h' | h'
  · rw [h']
    exact (tourn_fold_le (fun i => fitness_values.getD i 0)
      draws baseline).1
  · exact (tourn_fold_le (fun i => fitness_values.getD i 0)
      draws baseline).2 i h'

theorem c4_tournament_minimal_witness :
    select_index [3, 1, 2] 0 [1, 2] ∈ 0 :: [1, 2] ∧
    (∀ i ∈ 0 :: [1, 2],
      ([3, 1, 2] : List ℚ).getD (select_index [3, 1, 2] 0 [1, 2]) 0
        ≤ ([3, 1, 2] : List ℚ).getD i 0) ∧
    ∃ l1 l2, 0 :: [1, 2] = l1 ++ select_index [3, 1, 2] 0 [1, 2] :: l2 ∧
      ∀ j ∈ l1,
        ([3, 1, 2] : List ℚ).getD (select_index [3, 1, 2] 0 [1, 2]) 0
          < ([3, 1, 2] : List ℚ).getD j 0 :=
  c4_tournament_minimal [3, 1, 2] 0 [1, 2] (by decide)
    (by intro i hi; fin_cases hi <;> decide)

/-- C10: against a fitness list of length `n ≥ 2`, `__select` with draws
inside numpy's `randint(0, n − 1)` range returns an index in `[0, n − 2]`:
the successor read `populations[parent_index + 1]` is always in bounds and
the last index is never returned. -/
theorem c10_select_never_last (fitness_values : List ℚ) (n : ℕ)
    (baseline : ℕ) (draws : List ℕ) (hn : 2 ≤ n)
    (hb : baseline + 1 < n) (hd : ∀ i ∈ draws, i + 1 < n) :
    select_index fitness_values baseline draws + 1 < n ∧
    select_index fitness_values baseline draws ≠ n - 1 ∧
    ∀ pop : List Chromosome, pop.length = n →
      ∃ c, list_at pop (select_index fitness_values baseline draws + 1)
        = Except.ok c := by
  have hmem := tourn_fold_mem (fun i => fitness_values.getD i 0)
    draws baseline
  have hlt : select_index fitness_values baseline draws + 1 < n := by
    unfold select_index
    rcases List.mem_cons.1 hmem with h' | h'
    · rw [h']
      exact hb
    · exact hd _ h'
  refine ⟨hlt, by omega, ?_⟩
  intro pop hpop
  exact list_at_ok_of_lt (by omega)

theorem c10_select_never_last_witness :
    select_index [5, 6] 0 [0, 0] + 1 < 2 ∧
    select_index [5, 6] 0 [0, 0] ≠ 2 - 1 :=
  ⟨(c10_select_never_last [5, 6] 2 0 [0, 0] (by decide) (by decide)
      (by intro i hi; fin_cases hi <;> decide)).1,
   (c10_select_never_last [5, 6] 2 0 [0, 0] (by decide) (by decide)
      (by intro i hi; fin_cases hi <;> decide)).2.1⟩

/-- C7 counterexample: with `crossover_rate = 0` and the first `random()`
draw landing exactly on `0`, the guard `random() > crossover_rate` fails and
the crossover branch runs, so the child is not parent_1's genes. -/
theorem c7_counterexample :
    cross_over 0 0 0 { kp := 0, ki := 0, kd := 0, eta := 0 }
      { kp := 1, ki := 1, kd := 1, eta := 1 }
      ≠ { kp := 0, ki := 0, kd := 0, eta := 0 } := by
  have hc : cross_over (0 : ℚ) 0 0 { kp := 0, ki := 0, kd := 0, eta := 0 }
      { kp := 1, ki := 1, kd := 1, eta := 1 }
      = { kp := 1, ki := 0, kd := 0, eta := 1 } := by
    unfold cross_over cross_over_bands
    rw [if_neg (by norm_num), if_pos (by norm_num)]
  rw [hc]
  intro h
  have hk := congrArg Chromosome.kp h
  norm_num at hk

/-- C7 (amended): with `crossover_rate = 0`, crossover returns parent_1
unchanged for every first draw `r1 > 0` (the draw `r1 = 0`, possible since
`random()` ranges over `[0,1)`, instead takes the crossover branch); with
`crossover_rate = 1` every draw `r1 < 1` takes one of the five combination
bands, never the no-crossover branch. -/
theorem c7_crossover_rate_extremes (r1 r2 : ℚ) (p1 p2 : Chromosome) :
    (0 < r1 → cross_over 0 r1 r2 p1 p2 = p1) ∧
    (r1 < 1 → cross_over 1 r1 r2 p1 p2 = cross_over_bands r2 p1 p2) := by
  constructor
  · intro h
    unfold cross_over
    exact if_pos h
  · intro h
    unfold cross_over
    exact if_neg (lt_asymm h)

theorem c7_crossover_rate_extremes_witness :
    cross_over 0 (1/2) (9/10) { kp := 1, ki := 2, kd := 3, eta := 4 }
      { kp := 5, ki := 6, kd := 7, eta := 8 }
      = { kp := 1, ki := 2, kd := 3, eta := 4 } ∧
    cross_over 1 (1/2) (9/10) { kp := 1, ki := 2, kd := 3, eta := 4 }
      { kp := 5, ki := 6, kd := 7, eta := 8 }
      = cross_over_bands (9/10) { kp := 1, ki := 2, kd := 3, eta := 4 }
        { kp := 5, ki := 6, kd := 7, eta := 8 } :=
  ⟨(c7_crossover_rate_extremes (1/2) (9/10) _ _).1 (by norm_num),
   (c7_crossover_rate_extremes (1/2) (9/10) _ _).2 (by norm_num)⟩

/-- C2: with ordered boundaries, every chromosome of every reachable
population (the initial one included) has `kp`, `ki`, `kd` in the PID
boundary and `eta` in the eta boundary; in particular crossover and mutation
never push an in-bounds chromosome's field outside its boundary. -/
theorem c2_boundary_invariant (g : GAParams) (sinf : ℚ → ℚ)
    (pop : List Chromosome)
    (hpid : g.pid_boundary.1 ≤ g.pid_boundary.2)
    (heta : g.eta_boundary.1 ≤ g.eta_boundary.2)
    (hr : Reachable g sinf pop) :
    (∀ c ∈ pop, InBounds g c) ∧
    (∀ (rate r1 r2 : ℚ) (p1 p2 : Chromosome), InBounds g p1 →
      InBounds g p2 → InBounds g (cross_over rate r1 r2 p1 p2)) ∧
    (∀ (d : MutDraws) (c : Chromosome), InBounds g c →
      InBounds g (mutation g d c)) := by
  refine ⟨?_,
    fun rate r1 r2 p1 p2 h1 h2 =>
      cross_over_in_bounds g rate r1 r2 p1 p2 h1 h2,
    fun d c hc => mutation_in_bounds g d c hpid heta hc⟩
  induction hr with
  | init ds h =>
    intro c hc
    unfold init_population at hc
    rcases List.mem_map.1 hc with ⟨i, -, rfl⟩
    exact init_chromosome_in_bounds g (ds i) hpid heta (h i)
  | step pop ds pop' hr hds hp ih =>
    exact produce_ok_in_bounds g sinf pop pop' ds hpid heta hp ih

theorem c2_boundary_invariant_witness :
    InBounds example_config_one
      (init_chromosome example_config_one example_init_draws) := by
  apply (c2_boundary_invariant example_config_one (fun _ => 0)
    (init_population example_config_one (fun _ => example_init_draws))
    (by norm_num [example_config_one]) (by norm_num [example_config_one])
    (Reachable.init (fun _ => example_init_draws)
      (fun i => by norm_num [ValidInitDraws, UnitDraw, example_init_draws]))).1
  unfold init_population
  exact List.mem_map.2 ⟨0, by simp [example_config_one], rfl⟩

/-- C5 counterexample: a reachable state with `population_number = 1` on
which `produce_next_generation` does not complete: the first
`randint(0, len(fitness_values) - 1)` call is `randint(0, 0)` and raises
`ValueError`, so no new population is produced. -/
theorem c5_counterexample :
    Reachable example_config_one (fun _ => 0)
      (init_population example_config_one (fun _ => example_init_draws)) ∧
    produce_next_generation example_config_one (fun _ => 0)
      (init_population example_config_one (fun _ => example_init_draws))
      (fun _ => example_slot_draws) = Except.error PyError.valueError := by
  constructor
  · exact Reachable.init (fun _ => example_init_draws)
      (fun i => by norm_num [ValidInitDraws, UnitDraw, example_init_draws])
  · exact produce_value_error _ _ _ _ rfl
      (by simp [init_population, example_config_one])

/-- C5 (amended): for every reachable state with `population_number ≥ 2` and
every pseudo-random sequence inside numpy's ranges,
`produce_next_generation` completes and replaces the population with a new
one of size `population_number`; with `population_number = 1` it instead
raises `ValueError` from `randint(0, 0)`. -/
theorem c5_produce_size (g : GAParams) (sinf : ℚ → ℚ)
    (pop : List Chromosome) (ds : ℕ → SlotDraws)
    (hn : 2 ≤ g.population_number) (hr : Reachable g sinf pop)
    (hds : ∀ i, ValidSlotDraws g.population_number (ds i)) :
    ∃ pop', produce_next_generation g sinf pop ds = Except.ok pop' ∧
      pop'.length = g.population_number :=
  produce_total g sinf pop ds hn (reachable_length g sinf pop hr) hds

theorem c5_produce_size_witness :
    ∃ pop', produce_next_generation example_config_two (fun _ => 0)
      (init_population example_config_two (fun _ => example_init_draws))
      (fun _ => example_slot_draws) = Except.ok pop' ∧
      pop'.length = 2 :=
  c5_produce_size example_config_two (fun _ => 0) _ _
    (by norm_num [example_config_two])
    (Reachable.init (fun _ => example_init_draws)
      (fun i => by norm_num [ValidInitDraws, UnitDraw, example_init_draws]))
    (fun i => by
      norm_num [ValidSlotDraws, UnitDraw, ValidMutDraws,
        example_slot_draws, example_mut_draws, example_config_two])

/-- C9: with `population_number = 1`, `produce_next_generation` never reads
`populations[parent_index + 1]` out of range: the first `__select` call
raises `ValueError` from `randint(0, 0)` before any such read, so the run
ends with `ValueError` and never with `IndexError`. -/
theorem c9_population_one_no_index_error (g : GAParams) (sinf : ℚ → ℚ)
    (pop : List Chromosome) (ds : ℕ → SlotDraws)
    (hn : g.population_number = 1) (hlen : pop.length = 1) :
    produce_next_generation g sinf pop ds
      = Except.error PyError.valueError ∧
    produce_next_generation g sinf pop ds
      ≠ Except.error PyError.indexError := by
  have h := produce_value_error g sinf pop ds hn hlen
  refine ⟨h, ?_⟩
  rw [h]
  intro hcontra
  injection hcontra with h'
  cases h'

theorem c9_population_one_no_index_error_witness :
    produce_next_generation example_config_one (fun _ => 0)
      (init_population example_config_one (fun _ => example_init_draws))
      (fun _ => example_slot_draws) = Except.error PyError.valueError :=
  (c9_population_one_no_index_error example_config_one (fun _ => 0)
    (init_population example_config_one (fun _ => example_init_draws))
    (fun _ => example_slot_draws) rfl
    (by simp [init_population, example_config_one])).1

theorem signal_one_four : input_signal 1 4 = [1, 1, -1, 1] := by
  have h0 : Int.fract (0 : ℚ) = 0 := Int.fract_zero
  have h13 : Int.fract (1/3 : ℚ) = 1/3 := Int.fract_eq_self.2 (by norm_num)
  have h23 : Int.fract (2/3 : ℚ) = 2/3 := Int.fract_eq_self.2 (by norm_num)
  have h1 : Int.fract (1 : ℚ) = 0 := by
    simpa using Int.fract_intCast (α := ℚ) 1
  simp only [input_signal, square_wave]
  norm_num [List.range_succ, h0, h13, h23, h1]

/-- C6 counterexample: in the `period = 1`, `slicing-per-period = 4`
scenario the reference signal is not `(+1, +1, −1, −1)`: the fourth
`linspace` sample sits at the end of the period, where the square wave has
wrapped back to its high phase. -/
theorem c6_counterexample : input_signal 1 4 ≠ [1, 1, -1, -1] := by
  intro h
  rw [signal_one_four] at h
  norm_num at h

/-- C6 (amended): in the scenario `period = 1`, `slicing-per-period = 4`,
`initial-y-now = 0`, `u-boundary = [-1, 1]` with chromosome
`(kp, ki, kd, eta) = (1, 0, 0, 0)`, the reference signal is the square wave
sampled at 4 points with values `(+1, +1, −1, +1)` (the last sample wraps to
the start of the next period), and `run` produces exactly 4 error values and
the deterministic fitness `116/25`, independently of the `sin`
implementation since `eta = 0`. -/
theorem c6_square_scenario (sinf : ℚ → ℚ) :
    input_signal 1 4 = [1, 1, -1, 1] ∧
    (cs_run (mk_params example_chromosome_unit example_cfg_square) sinf
      example_cfg_square).errors.length = 4 ∧
    get_fitness_value (cs_run (mk_params example_chromosome_unit
      example_cfg_square) sinf example_cfg_square) = 116/25 := by
  have hcs : cs_run (mk_params example_chromosome_unit example_cfg_square)
      sinf example_cfg_square
      = (List.range' 1 3).foldl
        (fun s index => run_step (mk_params example_chromosome_unit
          example_cfg_square) sinf (input_signal 1 4) index s)
        (init_state (mk_params example_chromosome_unit example_cfg_square)
          (input_signal 1 4) 0) := rfl
  have hr : (List.range' 1 3) = [1, 2, 3] := rfl
  have h0 : init_state (mk_params example_chromosome_unit example_cfg_square)
      [1, 1, -1, 1] 0
      = { y_now := 0, y_fore := 0, y := [0], error_now := 1, error_fore := 0,
          error_sum := 0, errors := [1], u_now := 1, u_fore := 0 } := by
    norm_num [init_state, update_u_now, mk_params, example_chromosome_unit,
      example_cfg_square]
  have h1 : run_step (mk_params example_chromosome_unit example_cfg_square)
      sinf [1, 1, -1, 1] 1
      { y_now := 0, y_fore := 0, y := [0], error_now := 1, error_fore := 0,
        error_sum := 0, errors := [1], u_now := 1, u_fore := 0 }
      = { y_now := 1, y_fore := 1, y := [0, 1], error_now := 0,
          error_fore := 0, error_sum := 0, errors := [1, 0], u_now := 0,
          u_fore := 0 } := by
    norm_num [run_step, update_y_now, set_error_now, update_u_now,
      accumulate_error, shift_y, shift_u, mk_params,
      example_chromosome_unit, example_cfg_square]
  have h2 : run_step (mk_params example_chromosome_unit example_cfg_square)
      sinf [1, 1, -1, 1] 2
      { y_now := 1, y_fore := 1, y := [0, 1], error_now := 0,
        error_fore := 0, error_sum := 0, errors := [1, 0], u_now := 0,
        u_fore := 0 }
      = { y_now := 7/5, y_fore := 7/5, y := [0, 1, 7/5],
          error_now := -12/5, error_fore := -12/5, error_sum := -12/5,
          errors := [1, 0, -12/5], u_now := -1, u_fore := -1 } := by
    norm_num [run_step, update_y_now, set_error_now, update_u_now,
      accumulate_error, shift_y, shift_u, mk_params,
      example_chromosome_unit, example_cfg_square]
  have h3 : run_step (mk_params example_chromosome_unit example_cfg_square)
      sinf [1, 1, -1, 1] 3
      { y_now := 7/5, y_fore := 7/5, y := [0, 1, 7/5],
        error_now := -12/5, error_fore := -12/5, error_sum := -12/5,
        errors := [1, 0, -12/5], u_now := -1, u_fore := -1 }
      = { y_now := -6/25, y_fore := -6/25, y := [0, 1, 7/5, -6/25],
          error_now := 31/25, error_fore := 31/25, error_sum := -29/25,
          errors := [1, 0, -12/5, 31/25], u_now := 1, u_fore := 1 } := by
    norm_num [run_step, update_y_now, set_error_now, update_u_now,
      accumulate_error, shift_y, shift_u, mk_params,
      example_chromosome_unit, example_cfg_square]
  have hrun : cs_run (mk_params example_chromosome_unit example_cfg_square)
      sinf example_cfg_square
      = { y_now := -6/25, y_fore := -6/25, y := [0, 1, 7/5, -6/25],
          error_now := 31/25, error_fore := 31/25, error_sum := -29/25,
          errors := [1, 0, -12/5, 31/25], u_now := 1, u_fore := 1 } := by
    rw [hcs, hr, signal_one_four]
    simp only [List.foldl_cons, List.foldl_nil]
    rw [h0, h1, h2, h3]
  rw [hrun]
  refine ⟨signal_one_four, rfl, ?_⟩
  simp only [get_fitness_value, List.map_cons, List.map_nil,
    List.sum_cons, List.sum_nil]
  rw [show |(1:ℚ)| = 1 from abs_of_pos (by norm_num),
    show |(0:ℚ)| = 0 from abs_zero,
    show |(-12/5 : ℚ)| = 12/5 by rw [abs_of_neg (by norm_num)]; norm_num,
    show |(31/25 : ℚ)| = 31/25 from abs_of_pos (by norm_num)]
  norm_num

/-- C8: when `period * slicing_per_period < 2` (with both factors positive,
i.e. both equal to 1), the `run` loop performs zero iterations: the state
stays the constructor state, the error history holds only
`error_0 = input_signal[0] − initial_output`, and the fitness degenerates to
`|error_0|`. -/
theorem c8_degenerate_run (p : CSParams) (sinf : ℚ → ℚ) (cfg : CSConfig)
    (hper : 1 ≤ cfg.period) (hsl : 1 ≤ cfg.slicing_per_period)
    (hN : cfg.period * cfg.slicing_per_period < 2) :
    cs_run p sinf cfg = init_state p
      (input_signal cfg.period cfg.slicing_per_period) cfg.initial_y_now ∧
    (cs_run p sinf cfg).errors
      = [(input_signal cfg.period cfg.slicing_per_period).getD 0 0
          - cfg.initial_y_now] ∧
    get_fitness_value (cs_run p sinf cfg)
      = |(input_signal cfg.period cfg.slicing_per_period).getD 0 0
          - cfg.initial_y_now| := by
  have hmul : 1 * 1 ≤ cfg.period * cfg.slicing_per_period :=
    Nat.mul_le_mul hper hsl
  have hN1 : cfg.period * cfg.slicing_per_period = 1 := by omega
  have hrun : cs_run p sinf cfg = init_state p
      (input_signal cfg.period cfg.slicing_per_period)
      cfg.initial_y_now := by
    unfold cs_run
    rw [hN1]
    rfl
  refine ⟨hrun, ?_, ?_⟩
  · rw [hrun]
    unfold init_state update_u_now
    rfl
  · rw [hrun]
    unfold get_fitness_value init_state update_u_now
    simp

theorem c8_degenerate_run_witness :
    get_fitness_value (cs_run (mk_params example_chromosome_unit
      example_cs_config) (fun _ => 0) example_cs_config)
      = |(input_signal 1 1).getD 0 0 - 0| :=
  (c8_degenerate_run (mk_params example_chromosome_unit example_cs_config)
    (fun _ => 0) example_cs_config (by decide) (by decide) (by decide)).2.2

end GAPID
